import Mathlib

/-!
Verification development for the cloudify migration pipeline.

Shallow embedding of the coordination layer:
- src/agents/base_agent.py : AgentStatus, Event, EventType, AgentResult,
  EventBus (subscribe / publish / get_history), BaseAgent.execute
- src/agents/orchestrator.py : OrchestratorAgent._execute_impl and
  OrchestratorAgent._execute_agents_with_dependencies
- src/agents/base.py : BaseAgent.run retry loop (with utils/state.py
  AgentState.mark_completed / mark_failed)
- src/agents/frontend_deployment.py : the bounded wait loop for the
  backend-deployed event

Python dict-valued payloads are modelled as association lists of strings;
handler callables are modelled by integer identifiers together with a
behaviour function saying which handlers raise.  Demo-tracking fields of
AgentResult (execution_time, metadata, models_used, tools_called) carry no
coordination logic and are not modelled.
-/

namespace Cloudify

/-- Payload of an event or result: Python Dict[str, Any] restricted to the
string entries the coordination layer inspects. -/
abbrev Payload := List (String × String)

/-- AgentStatus enumeration from src/agents/base_agent.py lines 37-43. -/
inductive AgentStatus where
  | idle
  | running
  | success
  | failed
  | skipped
deriving DecidableEq, Repr

/-- EventType enumeration from src/agents/base_agent.py lines 46-61. -/
inductive EventType where
  | agent_started
  | agent_completed
  | agent_failed
  | analysis_complete
  | infrastructure_ready
  | database_migrated
  | backend_deployed
  | frontend_deployed
  | migration_complete
  | error_occurred
  | progress_update
  | model_handoff
  | tool_invoked
deriving DecidableEq, Repr

/-- Event dataclass from src/agents/base_agent.py lines 64-71.  The
timestamp and event_id fields are generated metadata never consulted by the
claims and are omitted. -/
structure Event where
  eventType : EventType
  sourceAgent : String
  data : Payload
deriving DecidableEq, Repr

/-- AgentResult dataclass from src/agents/base_agent.py lines 74-85,
restricted to the fields the coordination logic reads. -/
structure AgentResult where
  status : AgentStatus
  data : Payload
  errors : List String
  warnings : List String
deriving DecidableEq, Repr

/-! ## EventBus (src/agents/base_agent.py lines 88-128)

Subscribers are stored as (event type, handler id) pairs in registration
order; this is the flattening of the Python Dict[EventType, List[Callable]]
which preserves per-type registration order.  Handler behaviour is given by
a function saying which handler ids raise when invoked. -/

/-- The event bus state: registered subscribers and the append-only event
history. -/
structure EventBus where
  subscribers : List (EventType × Nat)
  history : List Event
deriving DecidableEq, Repr

/-- A freshly constructed bus: no subscribers, empty history
(EventBus.__init__). -/
def EventBus.new : EventBus := ⟨[], []⟩

/-- EventBus.subscribe: append the handler to the list for its type
(registration order preserved). -/
def EventBus.subscribe (bus : EventBus) (t : EventType) (h : Nat) : EventBus :=
  { bus with subscribers := bus.subscribers ++ [(t, h)] }

/-- The handlers registered for one event type, in registration order
(the Python self._subscribers[event_type] list). -/
def EventBus.handlersFor (bus : EventBus) (t : EventType) : List Nat :=
  (bus.subscribers.filter (fun p => decide (p.1 = t))).map (fun p => p.2)

/-- Observable outcome of one publish call: the updated bus, the handlers
invoked in order, and the handlers whose exception was caught and logged. -/
structure PublishTrace where
  bus : EventBus
  invoked : List Nat
  errorsLogged : List Nat
deriving DecidableEq, Repr

/-- One step of the callback delivery loop of EventBus.publish: the
callback is invoked; if it raises, the exception is caught and logged and
the loop continues with the next callback. -/
def publishStep (raises : Nat → Bool) (acc : List Nat × List Nat) (cb : Nat) :
    List Nat × List Nat :=
  (acc.1 ++ [cb], if raises cb then acc.2 ++ [cb] else acc.2)

/-- EventBus.publish (lines 107-122): append the event to the history,
then invoke every callback registered for its type in order, catching and
logging each callback exception. -/
def EventBus.publish (bus : EventBus) (e : Event) (raises : Nat → Bool) :
    PublishTrace :=
  let bus1 : EventBus := { bus with history := bus.history ++ [e] }
  let cbs := bus1.handlersFor e.eventType
  let res := cbs.foldl (publishStep raises) ([], [])
  ⟨bus1, res.1, res.2⟩

/-- EventBus.get_history (lines 124-128): all events, or those matching the
filter, in publish order. -/
def EventBus.get_history (bus : EventBus) (t : Option EventType) : List Event :=
  match t with
  | some ty => bus.history.filter (fun e => decide (e.eventType = ty))
  | none => bus.history

/-- Folding a sequence of publish calls over a bus. -/
def EventBus.publishAll (bus : EventBus) : List Event → (Nat → Bool) → EventBus
  | [], _ => bus
  | e :: es, raises => ((bus.publish e raises).bus).publishAll es raises

/-! ## BaseAgent.execute (src/agents/base_agent.py lines 211-288)

The stage-specific work (self._execute_impl) either returns an AgentResult
or raises an exception with some message; execute wraps it so that the
caller always receives a structured AgentResult. -/

/-- Behaviour of one invocation of stage-specific work: a returned
structured result, or a raised exception carrying a message. -/
inductive ExecOutcome where
  | ok (r : AgentResult)
  | exn (msg : String)
deriving DecidableEq, Repr

/-- The .value string of each AgentStatus member. -/
def statusValue : AgentStatus → String
  | .idle => "idle"
  | .running => "running"
  | .success => "success"
  | .failed => "failed"
  | .skipped => "skipped"

/-- The AGENT_STARTED event published on entry to execute (lines 216-220). -/
def agentStartedEvent (name : String) : Event :=
  ⟨EventType.agent_started, name, [("agent", name)]⟩

/-- The terminal event published when _execute_impl returns a result
(lines 234-255): AGENT_COMPLETED when the result status is SUCCESS,
AGENT_FAILED otherwise, with an error entry when the result has errors. -/
def agentTerminalEvent (name : String) (r : AgentResult) : Event :=
  ⟨(if r.status = AgentStatus.success then EventType.agent_completed
    else EventType.agent_failed),
   name,
   [("agent", name), ("status", statusValue r.status)] ++
     (if r.errors.isEmpty then []
      else [("error", String.intercalate "; " r.errors)])⟩

/-- The AGENT_FAILED event published when _execute_impl raises
(lines 278-286). -/
def agentExnEvent (name : String) (msg : String) : Event :=
  ⟨EventType.agent_failed, name, [("agent", name), ("error", msg)]⟩

/-- Observable outcome of BaseAgent.execute: the updated event bus, the
AgentResult handed back to the scheduler, and the final value of
self.status. -/
structure ExecuteTrace where
  bus : EventBus
  result : AgentResult
  agentStatus : AgentStatus
deriving DecidableEq, Repr

/-- BaseAgent.execute: publish AGENT_STARTED, run the stage-specific work,
and either hand back its structured result (publishing the matching
terminal event and recording its status), or catch the raised exception
and hand back a FAILED result carrying the exception message (lines
264-288).  The function is total: every behaviour of the work yields a
structured trace, never a raised exception. -/
def BaseAgent.execute (name : String) (bus : EventBus) (raises : Nat → Bool)
    (impl : ExecOutcome) : ExecuteTrace :=
  let bus1 := (bus.publish (agentStartedEvent name) raises).bus
  match impl with
  | .ok r =>
    let bus2 := (bus1.publish (agentTerminalEvent name r) raises).bus
    ⟨bus2, r, r.status⟩
  | .exn msg =>
    let r : AgentResult := ⟨AgentStatus.failed, [], [msg], []⟩
    let bus2 := (bus1.publish (agentExnEvent name msg) raises).bus
    ⟨bus2, r, AgentStatus.failed⟩

/-! ## Dependency-ordered scheduler
(src/agents/orchestrator.py, OrchestratorAgent._execute_agents_with_dependencies,
lines 166-232)

The run is parameterised by the outcome each agent.execute() call would
produce.  The three sequential phases call execute directly, which always
returns a structured AgentResult; the deployment tier is gathered with
return_exceptions=True, so its two members may also surface a raised
exception, modelled by ExecOutcome. -/

/-- Outcomes of the five agent executions in one pipeline run. -/
structure PipelineOutcomes where
  analyzer : AgentResult
  infra : AgentResult
  dbMigration : AgentResult
  backend : ExecOutcome
  frontend : ExecOutcome
deriving DecidableEq, Repr

/-- How the gather(return_exceptions=True) branch stores one deployment
outcome (lines 219-226): a returned result is kept unchanged; an exception
is converted to a FAILED result carrying str(exception). -/
def settleGathered : ExecOutcome → AgentResult
  | .ok r => r
  | .exn msg => ⟨AgentStatus.failed, [], [msg], []⟩

/-- OrchestratorAgent._execute_agents_with_dependencies: run CodeAnalyzer,
abort returning the map so far unless it succeeded; run Infrastructure,
abort returning the map so far unless it succeeded; run DatabaseMigration
and continue regardless of its status; then run the deployment tier, in
parallel (gathered, exceptions converted) or sequentially (a raised
exception propagates to the caller, losing the map) depending on the
parallel_execution flag.  The Except models exception propagation out of
the method. -/
def executeAgentsWithDependencies (parallel : Bool) (o : PipelineOutcomes) :
    Except String (List (String × AgentResult)) :=
  let results := [("CodeAnalyzer", o.analyzer)]
  if o.analyzer.status ≠ AgentStatus.success then .ok results
  else
    let results := results ++ [("Infrastructure", o.infra)]
    if o.infra.status ≠ AgentStatus.success then .ok results
    else
      let results := results ++ [("DatabaseMigration", o.dbMigration)]
      if parallel then
        .ok (results ++
          [("BackendDeployment", settleGathered o.backend),
           ("FrontendDeployment", settleGathered o.frontend)])
      else
        match o.backend with
        | .exn msg => .error msg
        | .ok rb =>
          match o.frontend with
          | .exn msg => .error msg
          | .ok rf =>
            .ok (results ++
              [("BackendDeployment", rb), ("FrontendDeployment", rf)])

/-- Outcome of OrchestratorAgent._execute_impl: whether the
MIGRATION_COMPLETE event was published, and the orchestrator-level
AgentResult. -/
structure OrchOutcome where
  migrationCompletePublished : Bool
  final : AgentResult
deriving DecidableEq, Repr

/-- The data keys of the orchestrator success-path result (lines 102-110);
the values are aggregates not inspected by any claim. -/
def orchestratorDataKeys : Payload :=
  [("summary", ""), ("agent_results", ""), ("total_agents", ""),
   ("successful_agents", ""), ("failed_agents", ""),
   ("all_models_used", ""), ("all_tools_called", "")]

/-- Aggregation step of OrchestratorAgent._execute_impl (lines 79-121):
all_success iff every result in the map has status SUCCESS;
MIGRATION_COMPLETE is published only when all_success; the final status is
SUCCESS when all_success and FAILED otherwise; per-stage errors and
warnings are collected prefixed by the stage name. -/
def aggregateResults (results : List (String × AgentResult)) : OrchOutcome :=
  let allSuccess :=
    results.all (fun p => decide (p.2.status = AgentStatus.success))
  { migrationCompletePublished := allSuccess
    final :=
      { status := if allSuccess then AgentStatus.success else AgentStatus.failed
        data := orchestratorDataKeys
        errors := (results.filter (fun p => ¬ p.2.errors.isEmpty)).map
          (fun p => p.1 ++ ": " ++ String.intercalate ", " p.2.errors)
        warnings := (results.filter (fun p => ¬ p.2.warnings.isEmpty)).map
          (fun p => p.1 ++ ": " ++ String.intercalate ", " p.2.warnings) } }

/-- OrchestratorAgent._execute_impl (lines 54-129): construct the five
specialist agents, execute the pipeline, and aggregate; any exception
raised inside the try block (by construction or by a sequentially executed
deployment stage) is caught and converted to a FAILED result with empty
data and the exception message (lines 123-129). -/
def orchestratorExecuteImpl (parallel : Bool)
    (construction : Except String Unit) (o : PipelineOutcomes) : OrchOutcome :=
  match construction with
  | .error msg => ⟨false, ⟨AgentStatus.failed, [], [msg], []⟩⟩
  | .ok _ =>
    match executeAgentsWithDependencies parallel o with
    | .error msg => ⟨false, ⟨AgentStatus.failed, [], [msg], []⟩⟩
    | .ok results => aggregateResults results

/-! ## Specialist-agent construction (claim C10)

BaseAgent.__init__ in src/agents/base_agent.py lines 144-159 accepts
exactly the keyword parameters name, event_bus, config, dedalus_api_key.
Every specialist subclass constructor forwards the keyword claude_api_key
instead (code_analyzer.py lines 30-36, infrastructure.py lines 27-33,
database_migration.py lines 24-30, backend_deployment.py lines 29-35,
frontend_deployment.py lines 27-33), so CPython keyword binding raises
TypeError. -/

/-- The keyword parameters accepted by BaseAgent.__init__ (base_agent.py
lines 144-150). -/
def baseAgentInitKeywords : List String :=
  ["name", "event_bus", "config", "dedalus_api_key"]

/-- The keywords every one of the five specialist subclass constructors
passes to super().__init__. -/
def specialistSuperKeywords : List String :=
  ["name", "event_bus", "config", "claude_api_key"]

/-- CPython keyword binding: the first passed keyword the callee does not
accept, if any; such a keyword makes the call raise TypeError. -/
def unexpectedKeyword (accepted passed : List String) : Option String :=
  passed.find? (fun k => ¬ accepted.contains k)

/-- The str() of the TypeError CPython raises for the mismatched keyword. -/
def claudeKeyTypeError : String :=
  "BaseAgent.__init__() got an unexpected keyword argument \x27claude_api_key\x27"

/-- Constructing the five specialists inside the orchestrator try block
(orchestrator.py lines 65-71): raises TypeError as soon as the first
constructor forwards an unexpected keyword. -/
def constructSpecialists : Except String Unit :=
  match unexpectedKeyword baseAgentInitKeywords specialistSuperKeywords with
  | some _ => .error claudeKeyTypeError
  | none => .ok ()

/-! ## Retry wrapper (src/agents/base.py, BaseAgent.run, lines 87-113)

The loop runs attempts 1 .. max_retries; each attempt calls execute(),
which either returns an output dict or raises with some message; the
format string combining the exception with traceback.format_exc() is
modelled by appending a traceback text supplied per attempt.  State marks
come from utils/state.py AgentState. -/

/-- Observable outcome of one BaseAgent.run call: number of execute()
invocations, the asyncio.sleep durations in order, the mark_completed
output (if any), the mark_failed error (if any), and the returned dict
(empty on failure, per the final return). -/
structure RunTrace where
  callsMade : Nat
  sleepsSeconds : List Nat
  markedCompleted : Option Payload
  markedFailed : Option String
  returned : Payload
deriving DecidableEq, Repr

/-- The retry loop of BaseAgent.run.  remaining counts the attempts still
allowed (initially max_retries); attempt is the 1-based loop variable.  On
success the output is marked completed and returned; on exception the
message plus traceback becomes last_error and, when further attempts
remain below max_retries, the loop sleeps 2 ^ attempt seconds; when the
loop exhausts, the stage is marked failed with last_error (or the
placeholder when no attempt ran) and the empty dict is returned
(lines 93-113). -/
def agentRunLoop (work : Nat → Except String Payload) (tb : Nat → String)
    (maxRetries : Nat) :
    Nat → Nat → Option String → Nat → List Nat → RunTrace
  | 0, _, lastError, calls, sleeps =>
    ⟨calls, sleeps, none, some (lastError.getD "Unknown error"), []⟩
  | r + 1, attempt, _, calls, sleeps =>
    match work attempt with
    | .ok out => ⟨calls + 1, sleeps, some out, none, out⟩
    | .error e =>
      let le := some (e ++ "\n" ++ tb attempt)
      let sleeps1 :=
        if attempt < maxRetries then sleeps ++ [2 ^ attempt] else sleeps
      agentRunLoop work tb maxRetries r (attempt + 1) le (calls + 1) sleeps1

/-- BaseAgent.run: mark running, then run the retry loop over attempts
1 .. max_retries. -/
def agentRun (work : Nat → Except String Payload) (tb : Nat → String)
    (maxRetries : Nat) : RunTrace :=
  agentRunLoop work tb maxRetries maxRetries 1 none 0 []

/-- The list [2 ^ a, 2 ^ (a + 1), ..., 2 ^ (a + r - 1)] of backoff sleeps
for r consecutive failed attempts starting at attempt a. -/
def geomRange : Nat → Nat → List Nat
  | _, 0 => []
  | a, r + 1 => 2 ^ a :: geomRange (a + 1) r

/-! ## Frontend wait for backend completion
(src/agents/frontend_deployment.py, _execute_impl, lines 42-63)

At poll iteration i the loop reads the bus history; because the backend
task runs concurrently the history evolves, so the run is parameterised by
the history visible at each iteration. -/

/-- Observable outcome of the wait loop: the number of history polls, the
asyncio.sleep durations in order, and the data of the last BACKEND_DEPLOYED
event if one was found. -/
structure WaitTrace where
  polls : Nat
  sleepsSeconds : List Nat
  found : Option Payload
deriving DecidableEq, Repr

/-- The wait loop body (for i in range(60)): poll
get_history(BACKEND_DEPLOYED) on the history visible at iteration i; if
nonempty take the data of its last event and stop; otherwise sleep 10
seconds and continue. -/
def frontendWaitLoop (histAt : Nat → List Event) :
    Nat → Nat → Nat → List Nat → WaitTrace
  | _, 0, polls, sleeps => ⟨polls, sleeps, none⟩
  | i, r + 1, polls, sleeps =>
    let events := (EventBus.get_history ⟨[], histAt i⟩
      (some EventType.backend_deployed))
    match events.getLast? with
    | some ev => ⟨polls + 1, sleeps, some ev.data⟩
    | none => frontendWaitLoop histAt (i + 1) r (polls + 1) (sleeps ++ [10])

/-- The timeout error message of frontend_deployment.py line 62. -/
def frontendTimeoutMessage : String :=
  "Timed out waiting for Backend Deployment (10 minutes)."

/-- The wait phase of FrontendDeploymentAgent._execute_impl: run the loop
for at most max_retries = 60 iterations; if no BACKEND_DEPLOYED event was
seen, return the FAILED timeout result (lines 58-63); otherwise hand the
backend data to the rest of the stage. -/
def frontendWaitPhase (histAt : Nat → List Event) :
    WaitTrace × Option AgentResult :=
  let t := frontendWaitLoop histAt 0 60 0 []
  match t.found with
  | none =>
    (t, some ⟨AgentStatus.failed, [], [frontendTimeoutMessage], []⟩)
  | some _ => (t, none)

/-! ## Helper lemmas -/

/-- Publishing appends the event to the history and changes nothing else
about the bus state. -/
theorem publish_bus_eq (bus : EventBus) (e : Event) (raises : Nat → Bool) :
    (bus.publish e raises).bus = ⟨bus.subscribers, bus.history ++ [e]⟩ := rfl

/-- The callback delivery fold invokes every callback in order and logs
exactly the raising ones, independent of which callbacks raise. -/
theorem publishStep_foldl (raises : Nat → Bool) (cbs : List Nat)
    (acc : List Nat × List Nat) :
    cbs.foldl (publishStep raises) acc =
      (acc.1 ++ cbs, acc.2 ++ cbs.filter raises) := by
  induction cbs generalizing acc with
  | nil => simp
  | cons c cs ih =>
    rw [List.foldl_cons, ih]
    by_cases h : raises c = true <;>
      simp [publishStep, h, List.filter_cons, List.append_assoc]

/-- The history after a sequence of publish calls is the original history
followed by the published events in call order. -/
theorem publishAll_history (events : List Event) (bus : EventBus)
    (raises : Nat → Bool) :
    (bus.publishAll events raises).history = bus.history ++ events := by
  induction events generalizing bus with
  | nil => simp [EventBus.publishAll]
  | cons e es ih =>
    rw [EventBus.publishAll, ih, publish_bus_eq]
    simp

/-- A singleton list intercalates to its only element. -/
theorem intercalate_singleton (s e : String) : String.intercalate s [e] = e := rfl

/-! ## Concrete stage results used by witnesses and counterexamples -/

/-- A successful stage result. -/
def okStage : AgentResult := ⟨AgentStatus.success, [("done", "yes")], [], []⟩

/-- A failed stage result with one error. -/
def failStage : AgentResult := ⟨AgentStatus.failed, [], ["boom"], []⟩

/-- Scenario in which only the non-critical DatabaseMigration stage fails
and the other four stages succeed. -/
def scenario2Outcomes : PipelineOutcomes :=
  ⟨okStage, okStage, failStage, .ok okStage, .ok okStage⟩

/-! ## Claims -/

/-- C6: for every sequence of publish calls on the event channel and every
event type, get_history with that type returns exactly the subsequence of
published events of that type in publish order, and get_history with no
filter returns all published events in publish order. -/
theorem history_filter_law (subs : List (EventType × Nat))
    (events : List Event) (raises : Nat → Bool) (ty : EventType) :
    (EventBus.publishAll ⟨subs, []⟩ events raises).get_history (some ty) =
      events.filter (fun e => decide (e.eventType = ty)) ∧
    (EventBus.publishAll ⟨subs, []⟩ events raises).get_history none = events := by
  have h := publishAll_history events ⟨subs, []⟩ raises
  constructor
  · simp [EventBus.get_history, h]
  · simp [EventBus.get_history, h]

/-- C7: every publish call appends the event to the history before the
handlers run, invokes exactly the handlers registered for the event type
in registration order (subscribe appends to that order), logs each handler
exception, and the set of invoked handlers does not depend on which
handlers raise — a raising handler neither stops delivery to the remaining
handlers nor fails the publish call, which always returns a trace. -/
theorem publish_order_and_exception_isolation (bus : EventBus) (e : Event)
    (raises : Nat → Bool) :
    (bus.publish e raises).bus.history = bus.history ++ [e] ∧
    (bus.publish e raises).invoked = bus.handlersFor e.eventType ∧
    (bus.publish e raises).errorsLogged =
      (bus.handlersFor e.eventType).filter raises ∧
    (∀ t h, (bus.subscribe t h).handlersFor t = bus.handlersFor t ++ [h]) := by
  refine ⟨rfl, ?_, ?_, ?_⟩
  · show ((bus.handlersFor e.eventType).foldl (publishStep raises) ([], [])).1 =
      bus.handlersFor e.eventType
    rw [publishStep_foldl]
    simp
  · show ((bus.handlersFor e.eventType).foldl (publishStep raises) ([], [])).2 =
      (bus.handlersFor e.eventType).filter raises
    rw [publishStep_foldl]
    simp
  · intro t h
    simp [EventBus.subscribe, EventBus.handlersFor, List.filter_append]

/-- C4: for every stage and every behaviour of its work, execute returns a
structured trace (totality of the definition); when the work raises, the
exception is converted into a FAILED AgentResult carrying the exception
message, the agent status is set to FAILED, and the events published are
AGENT_STARTED followed by AGENT_FAILED; when the work returns a result,
that structured result is handed back unchanged. -/
theorem execute_never_raises_converts_exception (name : String)
    (bus : EventBus) (raises : Nat → Bool) (msg : String) :
    (BaseAgent.execute name bus raises (.exn msg)).result =
      ⟨AgentStatus.failed, [], [msg], []⟩ ∧
    (BaseAgent.execute name bus raises (.exn msg)).agentStatus =
      AgentStatus.failed ∧
    (BaseAgent.execute name bus raises (.exn msg)).bus.history =
      bus.history ++ [agentStartedEvent name, agentExnEvent name msg] ∧
    (∀ r, (BaseAgent.execute name bus raises (.ok r)).result = r) := by
  refine ⟨rfl, rfl, ?_, fun r => rfl⟩
  show ((bus.history ++ [agentStartedEvent name]) ++ [agentExnEvent name msg]) =
    bus.history ++ [agentStartedEvent name, agentExnEvent name msg]
  simp

/-- C1: if the critical CodeAnalyzer stage finishes with a status other
than SUCCESS the scheduler returns a map containing exactly that stage;
if CodeAnalyzer succeeds and the critical Infrastructure stage finishes
with a status other than SUCCESS the map contains exactly those two
stages; in both cases no later stage appears in the map. -/
theorem critical_failure_halts_pipeline (parallel : Bool)
    (o : PipelineOutcomes) :
    (o.analyzer.status ≠ AgentStatus.success →
      executeAgentsWithDependencies parallel o =
        .ok [("CodeAnalyzer", o.analyzer)]) ∧
    (o.analyzer.status = AgentStatus.success →
      o.infra.status ≠ AgentStatus.success →
      executeAgentsWithDependencies parallel o =
        .ok [("CodeAnalyzer", o.analyzer), ("Infrastructure", o.infra)]) := by
  constructor
  · intro h
    simp [executeAgentsWithDependencies, h]
  · intro h1 h2
    simp [executeAgentsWithDependencies, h1, h2]

/-- Witness for C1 at concrete inputs: an analyzer failure yields the
singleton map, an infrastructure failure yields the two-stage map. -/
theorem critical_failure_halts_pipeline_witness :
    executeAgentsWithDependencies true
        ⟨failStage, okStage, okStage, .ok okStage, .ok okStage⟩ =
      .ok [("CodeAnalyzer", failStage)] ∧
    executeAgentsWithDependencies true
        ⟨okStage, failStage, okStage, .ok okStage, .ok okStage⟩ =
      .ok [("CodeAnalyzer", okStage), ("Infrastructure", failStage)] :=
  ⟨(critical_failure_halts_pipeline true
      ⟨failStage, okStage, okStage, .ok okStage, .ok okStage⟩).1 (by decide),
   (critical_failure_halts_pipeline true
      ⟨okStage, failStage, okStage, .ok okStage, .ok okStage⟩).2
     (by decide) (by decide)⟩

/-- C9: with the preceding critical stages successful, the parallel
deployment tier always stores an entry for both deployment stages: a
raised exception is converted to a FAILED result carrying the exception
message, and the sibling outcome is retained unchanged. -/
theorem concurrent_tier_retains_both_results (a i db : AgentResult)
    (bo fo : ExecOutcome) (ha : a.status = AgentStatus.success)
    (hi : i.status = AgentStatus.success) :
    executeAgentsWithDependencies true ⟨a, i, db, bo, fo⟩ =
      .ok [("CodeAnalyzer", a), ("Infrastructure", i),
           ("DatabaseMigration", db),
           ("BackendDeployment", settleGathered bo),
           ("FrontendDeployment", settleGathered fo)] ∧
    (∀ m, settleGathered (.exn m) = ⟨AgentStatus.failed, [], [m], []⟩) ∧
    (∀ r, settleGathered (.ok r) = r) := by
  refine ⟨?_, fun m => rfl, fun r => rfl⟩
  simp [executeAgentsWithDependencies, ha, hi]

/-- Witness for C9: backend raises while frontend succeeds; both entries
are present, the exception became a FAILED result and the sibling result
is unchanged. -/
theorem concurrent_tier_retains_both_results_witness :
    executeAgentsWithDependencies true
        ⟨okStage, okStage, okStage, .exn "backend crashed", .ok okStage⟩ =
      .ok [("CodeAnalyzer", okStage), ("Infrastructure", okStage),
           ("DatabaseMigration", okStage),
           ("BackendDeployment", ⟨AgentStatus.failed, [], ["backend crashed"], []⟩),
           ("FrontendDeployment", okStage)] :=
  (concurrent_tier_retains_both_results okStage okStage okStage
      (.exn "backend crashed") (.ok okStage) (by decide) (by decide)).1

/-- C10: every specialist subclass constructor forwards the keyword
claude_api_key, which BaseAgent.__init__ does not accept, so construction
raises TypeError regardless of the argument values; since the orchestrator
constructs the five specialists inside its guarded body, every pipeline
run — for every configuration and every would-be agent behaviour — returns
a FAILED orchestrator result with empty data and the TypeError message,
publishing no MIGRATION_COMPLETE event and executing no stage. -/
theorem specialist_constructor_type_error :
    unexpectedKeyword baseAgentInitKeywords specialistSuperKeywords =
      some "claude_api_key" ∧
    constructSpecialists = .error claudeKeyTypeError ∧
    ∀ (parallel : Bool) (o : PipelineOutcomes),
      orchestratorExecuteImpl parallel constructSpecialists o =
        ⟨false, ⟨AgentStatus.failed, [], [claudeKeyTypeError], []⟩⟩ := by
  refine ⟨by decide, rfl, fun parallel o => rfl⟩

/-- C2: for every result map produced by a pipeline run, the aggregated
orchestrator status is SUCCESS exactly when every stage present in the map
has status SUCCESS; stages absent from the map after an early abort do not
enter the computation. -/
theorem overall_success_iff_executed_all_succeed (parallel : Bool)
    (o : PipelineOutcomes) (results : List (String × AgentResult))
    (_h : executeAgentsWithDependencies parallel o = .ok results) :
    (aggregateResults results).final.status = AgentStatus.success ↔
      ∀ p ∈ results, p.2.status = AgentStatus.success := by
  have hiff :
      (results.all (fun p => decide (p.2.status = AgentStatus.success)) = true)
        ↔ ∀ p ∈ results, p.2.status = AgentStatus.success := by
    rw [List.all_eq_true]
    simp
  by_cases hb :
      results.all (fun p => decide (p.2.status = AgentStatus.success)) = true
  · simp [aggregateResults, hb]
    exact fun a b hab => hiff.mp hb (a, b) hab
  · have hnot : ¬ ∀ p ∈ results, p.2.status = AgentStatus.success :=
      fun hc => hb (hiff.mpr hc)
    push_neg at hnot
    obtain ⟨p, hp, hps⟩ := hnot
    simp [aggregateResults, hb]
    exact ⟨p.1, p.2, hp, hps⟩

/-- Witness for C2: the aborted map of a failed analyzer has a
non-successful entry, so the aggregate is not SUCCESS. -/
theorem overall_success_iff_executed_all_succeed_witness :
    ((aggregateResults [("CodeAnalyzer", failStage)]).final.status =
        AgentStatus.success ↔
      ∀ p ∈ [("CodeAnalyzer", failStage)],
        p.2.status = AgentStatus.success) :=
  overall_success_iff_executed_all_succeed true
    ⟨failStage, okStage, okStage, .ok okStage, .ok okStage⟩
    [("CodeAnalyzer", failStage)] rfl

/-- C3 counterexample: in the run where only the non-critical
DatabaseMigration stage fails and the other four stages succeed, the
MIGRATION_COMPLETE event is not published, the orchestrator-level status
is FAILED rather than SUCCESS, and the stage-3 failure is surfaced in the
errors list, not as a warning — refuting the claimed conjunction. -/
theorem scenario2_counterexample :
    (orchestratorExecuteImpl true (.ok ()) scenario2Outcomes).migrationCompletePublished
        = false ∧
    (orchestratorExecuteImpl true (.ok ()) scenario2Outcomes).final.status =
        AgentStatus.failed ∧
    (orchestratorExecuteImpl true (.ok ()) scenario2Outcomes).final.warnings = [] ∧
    (orchestratorExecuteImpl true (.ok ()) scenario2Outcomes).final.errors =
        ["DatabaseMigration: boom"] := by
  decide

/-- C3 amended: in every run where only the non-critical DatabaseMigration
stage fails (with one error and no warnings) and the other four stages
succeed cleanly, the result map contains all five stages, but the
MIGRATION_COMPLETE event is not published, the final orchestrator-level
status is FAILED (overall success requires every executed stage to
succeed), and the stage-3 failure is surfaced in the orchestrator errors
list prefixed with the stage name, while the warnings list stays empty. -/
theorem scenario2_amended (a i db rb rf : AgentResult) (e : String)
    (ha : a.status = AgentStatus.success) (hi : i.status = AgentStatus.success)
    (hrb : rb.status = AgentStatus.success)
    (hrf : rf.status = AgentStatus.success)
    (hdb : db.status = AgentStatus.failed) (hde : db.errors = [e])
    (hea : a.errors = []) (hei : i.errors = []) (heb : rb.errors = [])
    (hef : rf.errors = [])
    (hwa : a.warnings = []) (hwi : i.warnings = []) (hwd : db.warnings = [])
    (hwb : rb.warnings = []) (hwf : rf.warnings = []) :
    executeAgentsWithDependencies true ⟨a, i, db, .ok rb, .ok rf⟩ =
      .ok [("CodeAnalyzer", a), ("Infrastructure", i),
           ("DatabaseMigration", db), ("BackendDeployment", rb),
           ("FrontendDeployment", rf)] ∧
    (orchestratorExecuteImpl true (.ok ())
        ⟨a, i, db, .ok rb, .ok rf⟩).migrationCompletePublished = false ∧
    (orchestratorExecuteImpl true (.ok ())
        ⟨a, i, db, .ok rb, .ok rf⟩).final.status = AgentStatus.failed ∧
    (orchestratorExecuteImpl true (.ok ())
        ⟨a, i, db, .ok rb, .ok rf⟩).final.errors =
      ["DatabaseMigration: " ++ e] ∧
    (orchestratorExecuteImpl true (.ok ())
        ⟨a, i, db, .ok rb, .ok rf⟩).final.warnings = [] := by
  refine ⟨?_, ?_, ?_, ?_, ?_⟩ <;>
    simp [executeAgentsWithDependencies, orchestratorExecuteImpl,
      aggregateResults, settleGathered, ha, hi, hrb, hrf, hdb, hde, hea,
      hei, heb, hef, hwa, hwi, hwd, hwb, hwf, intercalate_singleton]

/-- Witness for C3 amended at the concrete scenario-2 run. -/
theorem scenario2_amended_witness :
    executeAgentsWithDependencies true scenario2Outcomes =
      .ok [("CodeAnalyzer", okStage), ("Infrastructure", okStage),
           ("DatabaseMigration", failStage), ("BackendDeployment", okStage),
           ("FrontendDeployment", okStage)] ∧
    (orchestratorExecuteImpl true (.ok ())
        scenario2Outcomes).migrationCompletePublished = false ∧
    (orchestratorExecuteImpl true (.ok ())
        scenario2Outcomes).final.status = AgentStatus.failed ∧
    (orchestratorExecuteImpl true (.ok ())
        scenario2Outcomes).final.errors = ["DatabaseMigration: " ++ "boom"] ∧
    (orchestratorExecuteImpl true (.ok ())
        scenario2Outcomes).final.warnings = [] :=
  scenario2_amended okStage okStage failStage okStage okStage "boom"
    (by decide) (by decide) (by decide) (by decide) (by decide) (by decide)
    (by decide) (by decide) (by decide) (by decide) (by decide) (by decide)
    (by decide) (by decide) (by decide)

/-! ## Retry loop lemmas (claim C5) -/

/-- The retry loop calls the work at most once per remaining attempt. -/
theorem agentRunLoop_calls_le (work : Nat → Except String Payload)
    (tb : Nat → String) (maxRetries : Nat) :
    ∀ (r attempt : Nat) (le : Option String) (calls : Nat)
      (sleeps : List Nat),
      (agentRunLoop work tb maxRetries r attempt le calls sleeps).callsMade ≤
        calls + r := by
  intro r
  induction r with
  | zero =>
    intro attempt le calls sleeps
    simp [agentRunLoop]
  | succ r ih =>
    intro attempt le calls sleeps
    rw [agentRunLoop]
    cases hw : work attempt with
    | ok out => simp
    | error e =>
      simp only []
      calc (agentRunLoop work tb maxRetries r (attempt + 1) _ (calls + 1)
              _).callsMade
          ≤ (calls + 1) + r := ih (attempt + 1) _ (calls + 1) _
        _ ≤ calls + (r + 1) := by omega

/-- If every attempt from attempt up to max_retries fails, the loop
exhausts the remaining r + 1 attempts, sleeps 2 ^ j after each failing
attempt j below max_retries, and marks the stage failed with the final
attempt error text. -/
theorem agentRunLoop_all_fail (work : Nat → Except String Payload)
    (tb : Nat → String) (maxRetries : Nat) (errOf : Nat → String) :
    ∀ (r attempt : Nat) (le : Option String) (calls : Nat)
      (sleeps : List Nat),
      attempt + r = maxRetries →
      (∀ j, attempt ≤ j → j ≤ maxRetries → work j = .error (errOf j)) →
      agentRunLoop work tb maxRetries (r + 1) attempt le calls sleeps =
        ⟨calls + r + 1, sleeps ++ geomRange attempt r, none,
         some (errOf maxRetries ++ "\n" ++ tb maxRetries), []⟩ := by
  intro r
  induction r with
  | zero =>
    intro attempt le calls sleeps hsum hfail
    have ha : attempt = maxRetries := by omega
    rw [agentRunLoop, hfail attempt (Nat.le_refl _) (by omega)]
    simp [agentRunLoop, geomRange, ha]
  | succ r ih =>
    intro attempt le calls sleeps hsum hfail
    have hlt : attempt < maxRetries := by omega
    rw [agentRunLoop, hfail attempt (Nat.le_refl _) (by omega)]
    simp only [if_pos hlt]
    rw [ih (attempt + 1) _ (calls + 1) _ (by omega)
      (fun j h1 h2 => hfail j (by omega) h2)]
    simp [geomRange, List.append_assoc]
    omega

/-- If the first m attempts starting at attempt fail and attempt m + 1 of
the window succeeds within the remaining budget, the loop stops at that
attempt, returns its output, and slept 2 ^ j after each failed attempt. -/
theorem agentRunLoop_first_success (work : Nat → Except String Payload)
    (tb : Nat → String) (maxRetries : Nat) (errOf : Nat → String)
    (out : Payload) :
    ∀ (m r attempt : Nat) (le : Option String) (calls : Nat)
      (sleeps : List Nat),
      m < r →
      attempt + r = maxRetries + 1 →
      (∀ j, attempt ≤ j → j < attempt + m → work j = .error (errOf j)) →
      work (attempt + m) = .ok out →
      agentRunLoop work tb maxRetries r attempt le calls sleeps =
        ⟨calls + m + 1, sleeps ++ geomRange attempt m, some out, none,
         out⟩ := by
  intro m
  induction m with
  | zero =>
    intro r attempt le calls sleeps hmr hsum hfail hok
    obtain ⟨r, rfl⟩ : ∃ s, r = s + 1 := ⟨r - 1, by omega⟩
    rw [agentRunLoop]
    rw [show attempt + 0 = attempt from rfl] at hok
    rw [hok]
    simp [geomRange]
  | succ m ih =>
    intro r attempt le calls sleeps hmr hsum hfail hok
    obtain ⟨r, rfl⟩ : ∃ s, r = s + 1 := ⟨r - 1, by omega⟩
    have hlt : attempt < maxRetries := by omega
    rw [agentRunLoop, hfail attempt (Nat.le_refl _) (by omega)]
    simp only [if_pos hlt]
    rw [ih r (attempt + 1) _ (calls + 1) _ (by omega) (by omega)
      (fun j h1 h2 => hfail j (by omega) (by omega))
      (by rw [show attempt + 1 + m = attempt + (m + 1) by omega]; exact hok)]
    simp [geomRange, List.append_assoc]
    omega

/-- C5: for every stage with configured max attempt count N at least 1,
the retry wrapper calls the work at most N times; if attempts 1 .. k - 1
fail and attempt k succeeds (k within budget), the run stops there with
the output of attempt k, after sleeping 2 ^ 1, ..., 2 ^ (k - 1) seconds
between the consecutive attempts; if all N attempts fail, the run sleeps
2 ^ 1, ..., 2 ^ (N - 1) seconds between attempts and marks the stage
failed with only the final attempt error text surfaced, returning the
empty dict. -/
theorem retry_wrapper_semantics (work : Nat → Except String Payload)
    (tb : Nat → String) (N : Nat) (hN : 1 ≤ N) :
    (agentRun work tb N).callsMade ≤ N ∧
    (∀ (k : Nat) (out : Payload) (errOf : Nat → String),
      1 ≤ k → k ≤ N →
      (∀ j, 1 ≤ j → j < k → work j = .error (errOf j)) →
      work k = .ok out →
      agentRun work tb N = ⟨k, geomRange 1 (k - 1), some out, none, out⟩) ∧
    (∀ (errOf : Nat → String),
      (∀ j, 1 ≤ j → j ≤ N → work j = .error (errOf j)) →
      agentRun work tb N =
        ⟨N, geomRange 1 (N - 1), none,
         some (errOf N ++ "\n" ++ tb N), []⟩) := by
  refine ⟨?_, ?_, ?_⟩
  · have := agentRunLoop_calls_le work tb N N 1 none 0 []
    simpa [agentRun] using this
  · intro k out errOf hk1 hkN hfail hok
    have h := agentRunLoop_first_success work tb N errOf out (k - 1) N 1
      none 0 [] (by omega) (by omega)
      (fun j h1 h2 => hfail j h1 (by omega))
      (by rw [show 1 + (k - 1) = k by omega]; exact hok)
    rw [agentRun, h]
    simp
    omega
  · intro errOf hfail
    obtain ⟨M, hM⟩ : ∃ M, N = M + 1 := ⟨N - 1, by omega⟩
    subst hM
    have h := agentRunLoop_all_fail work tb (M + 1) errOf M 1 none 0 []
      (by omega) (fun j h1 h2 => hfail j h1 h2)
    rw [agentRun, h]
    simp

/-- Witness for C5 with N = 2: the work fails on attempt 1 and succeeds on
attempt 2; the run makes both calls, sleeps 2 seconds in between, and
returns the second attempt output. -/
theorem retry_wrapper_semantics_witness :
    agentRun
        (fun j => if j = 1 then .error "transient" else .ok [("v", "2")])
        (fun _ => "tb") 2 =
      ⟨2, geomRange 1 1, some [("v", "2")], none, [("v", "2")]⟩ :=
  (retry_wrapper_semantics
      (fun j => if j = 1 then .error "transient" else .ok [("v", "2")])
      (fun _ => "tb") 2 (by decide)).2.1 2 [("v", "2")] (fun _ => "transient")
    (by decide) (by decide)
    (by intro j h1 h2; interval_cases j; rfl)
    rfl

/-! ## Frontend wait loop lemmas (claim C8) -/

/-- The wait loop polls at most once per remaining iteration. -/
theorem frontendWaitLoop_polls_le (histAt : Nat → List Event) :
    ∀ (r i polls : Nat) (sleeps : List Nat),
      (frontendWaitLoop histAt i r polls sleeps).polls ≤ polls + r := by
  intro r
  induction r with
  | zero =>
    intro i polls sleeps
    simp [frontendWaitLoop]
  | succ r ih =>
    intro i polls sleeps
    rw [frontendWaitLoop]
    cases hg : (EventBus.get_history ⟨[], histAt i⟩
        (some EventType.backend_deployed)).getLast? with
    | some ev => simp
    | none =>
      simp only []
      calc (frontendWaitLoop histAt (i + 1) r (polls + 1)
              (sleeps ++ [10])).polls
          ≤ (polls + 1) + r := ih (i + 1) (polls + 1) (sleeps ++ [10])
        _ ≤ polls + (r + 1) := by omega

/-- If no BACKEND_DEPLOYED event is visible at any of the next r poll
iterations, the loop polls all r times, sleeps 10 seconds after each poll,
and finds nothing. -/
theorem frontendWaitLoop_no_event (histAt : Nat → List Event) :
    ∀ (r i polls : Nat) (sleeps : List Nat),
      (∀ j, i ≤ j → j < i + r →
        (histAt j).filter
          (fun e => decide (e.eventType = EventType.backend_deployed)) = []) →
      frontendWaitLoop histAt i r polls sleeps =
        ⟨polls + r, sleeps ++ List.replicate r 10, none⟩ := by
  intro r
  induction r with
  | zero =>
    intro i polls sleeps hempty
    simp [frontendWaitLoop]
  | succ r ih =>
    intro i polls sleeps hempty
    rw [frontendWaitLoop]
    have hi : (EventBus.get_history ⟨[], histAt i⟩
        (some EventType.backend_deployed)) = [] :=
      hempty i (Nat.le_refl _) (by omega)
    rw [hi]
    simp only [List.getLast?_nil]
    rw [ih (i + 1) (polls + 1) (sleeps ++ [10])
      (fun j h1 h2 => hempty j (by omega) (by omega))]
    simp [List.replicate_succ, List.append_assoc]
    omega

/-- C8: the frontend wait for backend completion is bounded: for every
history behaviour the loop polls at most 60 times; it polls at a fixed
10-second interval, and when no BACKEND_DEPLOYED event appears within the
60 polls it performs exactly 60 polls with a 10-second sleep after each
(10 minutes total) and returns a FAILED result whose only error is the
timeout-specific message, which extends the text the claim quotes; the
loop always terminates because it is a total structurally recursive
function. -/
theorem frontend_wait_bounded_timeout (histAt : Nat → List Event)
    (h : ∀ j, j < 60 →
      (histAt j).filter
        (fun e => decide (e.eventType = EventType.backend_deployed)) = []) :
    (∀ g : Nat → List Event, (frontendWaitLoop g 0 60 0 []).polls ≤ 60) ∧
    frontendWaitPhase histAt =
      (⟨60, List.replicate 60 10, none⟩,
       some ⟨AgentStatus.failed, [], [frontendTimeoutMessage], []⟩) ∧
    frontendTimeoutMessage =
      "Timed out waiting for Backend Deployment" ++ " (10 minutes)." := by
  refine ⟨fun g => frontendWaitLoop_polls_le g 60 0 0 [], ?_, rfl⟩
  have hloop := frontendWaitLoop_no_event histAt 60 0 0 []
    (fun j h1 h2 => h j (by omega))
  rw [frontendWaitPhase, hloop]
  simp

/-- Witness for C8: with an empty history at every iteration the wait
phase times out after 60 polls and 60 ten-second sleeps. -/
theorem frontend_wait_bounded_timeout_witness :
    frontendWaitPhase (fun _ => []) =
      (⟨60, List.replicate 60 10, none⟩,
       some ⟨AgentStatus.failed, [], [frontendTimeoutMessage], []⟩) :=
  (frontend_wait_bounded_timeout (fun _ => []) (fun _ _ => rfl)).2.1

end Cloudify
